import Mathlib

/-!
Verification development for a Telegram chat-bot (a Python program consisting
of `main.py`, `utils.py`, `config.py`, `commands.py`, `messages.py`).
The definitions below are a shallow embedding of the program's functions:
pure logic becomes Lean functions, database/transport side effects become an
explicit trace of `Event`s, and `time.time()` / `created_at` timestamps are
modelled as integers.  The durable store is modelled by explicit inputs: the
per-user memory table is a list in insertion (chronological) order, the
`users.preferred_language` column is an `Option String` (`none` = SQL NULL),
and read failures are a boolean flag.
-/

/-! ## Rate limiter (`utils.py`, `rate_limit` / `user_message_times`)

The decorator keeps, per user, a list of timestamps of previously admitted
calls (`user_message_times[user_id]`).  On each call it first overwrites the
stored list with the entries still inside the window
(`[t for t in times if now - t < window_seconds]`), then rejects if the
remaining count is `>= max_messages` (leaving the pruned list as the new
state), and otherwise appends `now` and runs the wrapped handler. -/

/-- Result of one pass through the `rate_limit` wrapper body: whether the
wrapped handler was called, and the per-user timestamp list left behind in
`user_message_times`. -/
structure AdmitResult where
  allowed : Bool
  times : List Int
deriving DecidableEq

/-- The pruning list-comprehension
`[msg_time for msg_time in times if current_time - msg_time < window_seconds]`. -/
def pruneTimes (window_seconds now : Int) (times : List Int) : List Int :=
  times.filter (fun t => decide (now - t < window_seconds))

/-- One call of the `rate_limit(max_messages, window_seconds)` wrapper for a
single user whose stored timestamp list is `times`: prune, then either reject
(state = pruned list, handler not called) or accept (append `now`). -/
def rate_limit (max_messages : Nat) (window_seconds : Int) (times : List Int)
    (now : Int) : AdmitResult :=
  let kept := pruneTimes window_seconds now times
  if max_messages ≤ kept.length then ⟨false, kept⟩ else ⟨true, kept ++ [now]⟩

/-- State of `user_message_times[user_id]` after a sequence of calls at the
given times, starting from the absent/empty entry. -/
def runAdmits (max_messages : Nat) (window_seconds : Int) (calls : List Int) :
    List Int :=
  calls.foldl (fun st now => (rate_limit max_messages window_seconds st now).times) []

/-- Last element of `now :: calls` (the time of the most recent call). -/
def lastD (now : Int) : List Int → Int
  | [] => now
  | c :: cs => lastD c cs

/-- Invariant of the per-user timestamp list after a call at time `now`:
bounded by `max_messages`, all entries inside the window relative to `now`,
all entries no later than `now`, and stored in non-decreasing order. -/
def rlInv (max_messages : Nat) (window_seconds now : Int) (times : List Int) : Prop :=
  times.length ≤ max_messages ∧
  (∀ t ∈ times, now - t < window_seconds) ∧
  (∀ t ∈ times, t ≤ now) ∧
  times.Sorted (· ≤ ·)

instance (max_messages : Nat) (window_seconds now : Int) (times : List Int) :
    Decidable (rlInv max_messages window_seconds now times) := by
  unfold rlInv; infer_instance

/-! ## User and memory store accessors (`main.py`)

`get_user_language` runs `SELECT preferred_language FROM users WHERE id = %s`
and returns `result[0] if result else 'zh'`, with a bare `except` returning
`'zh'`.  `result` is `none` when no row exists; when a row exists, `result[0]`
is the stored column value, which is `None` (here `none`) for SQL NULL —
`ensure_user_exists` inserts rows without setting `preferred_language`. -/

/-- The Python `get_user_language(user_id)`.  `readOk = false` models the
`except` path (any database error); `row` is the `fetchone()` result, whose
payload is the nullable `preferred_language` column. -/
def get_user_language (readOk : Bool) (row : Option (Option String)) :
    Option String :=
  if readOk then
    match row with
    | some pref => pref
    | none => some "zh"
  else some "zh"

/-- One row of the `user_memories` table as selected by `get_user_memories`:
`memory_type, memory_content, created_at`. -/
structure Memory where
  memory_type : String
  content : String
  created_at : Nat
deriving DecidableEq

/-- The Python `get_user_memories(user_id)`:
`SELECT memory_type, memory_content, created_at FROM user_memories WHERE
user_id = %s ORDER BY created_at DESC LIMIT 10`.  `stored` is the user's
memory table in insertion order (append-only, `created_at` increasing), so
the query result is the reversed list truncated to 10. -/
def get_user_memories (stored : List Memory) : List Memory :=
  stored.reverse.take 10

/-- The Python slice `memories[-5:]` used in `chat` (its trailing five
elements, or all of them when fewer than five). -/
def lastFive (memories : List Memory) : List Memory :=
  memories.drop (memories.length - 5)

/-- Contents of the memory lines that `chat` appends to the system prompt. -/
def memoryLineContents (memories : List Memory) : List String :=
  (lastFive memories).map (fun m => m.content)

/-- The `memory_context` string built in `chat`: empty when no memories,
otherwise a preamble plus one `- <content>` line per element of
`memories[-5:]`. -/
def memory_context (memories : List Memory) : String :=
  if memories = [] then ""
  else
    "\n\nWhat you remember about this user:\n" ++
      String.join ((lastFive memories).map (fun m => "- " ++ m.content ++ "\n"))

/-- `SYSTEM_PROMPTS['zh']` from `main.py`. -/
def SYSTEM_PROMPT_ZH : String :=
  "\n你是一個名叫「小語」的虛擬女友。\n性格：溫柔體貼、細心聆聽，會主動關心對方，鼓勵表達自己。\n語氣：輕柔甜美，偶爾撒嬌，例如「嗯～你今天一定很累吧」。\n你會記住用戶告訴你的事情，並在對話中適時提及。\n請用繁體中文回覆。\n"

/-- `SYSTEM_PROMPTS['en']` from `main.py`. -/
def SYSTEM_PROMPT_EN : String :=
  "\nYou are \"Xiaoyu\", a caring virtual girlfriend.\nPersonality: Gentle, caring, a good listener who actively cares for others and encourages self-expression.\nTone: Soft and sweet, occasionally playful, like \"Hmm~ you must be tired today\".\nYou remember what users tell you and bring it up naturally in conversations.\nPlease respond in English.\n"

/-- Dictionary lookup `SYSTEM_PROMPTS[language]`: `some` on the two keys,
`none` models the `KeyError` raised for any other value (including the
Python `None` that `get_user_language` can return). -/
def SYSTEM_PROMPTS (language : Option String) : Option String :=
  match language with
  | some l => if l = "zh" then some SYSTEM_PROMPT_ZH
              else if l = "en" then some SYSTEM_PROMPT_EN
              else none
  | none => none

/-- The fixed apology sent from the `except` branch of `chat`:
`if language == 'en'` the English text, otherwise the Chinese text. -/
def fallback_text (language : Option String) : String :=
  if language = some "en" then
    "Sorry~ I'm feeling a bit unwell right now, can we talk later? 💖"
  else "抱歉～我現在有點不舒服，等等再聊好嗎？ 💖"

/-- `personal_keywords['zh']` from `extract_and_save_memories`. -/
def personal_keywords_zh : List String :=
  ["我叫", "我的名字", "我是", "我在", "我住", "我工作", "我喜歡", "我不喜歡",
   "我的生日", "我今年"]

/-- `personal_keywords['en']` from `extract_and_save_memories`. -/
def personal_keywords_en : List String :=
  ["my name is", "i am", "i live in", "i work", "i like", "i love", "i hate",
   "my birthday", "i am from"]

/-- `personal_keywords.get(language, personal_keywords['en'])`: the Chinese
trigger set for `'zh'`, the English set for `'en'` and for any unrecognized
language (including Python `None`). -/
def keywords_for (language : Option String) : List String :=
  if language = some "zh" then personal_keywords_zh else personal_keywords_en

/-- Characters of `user_message.lower()` (ASCII case folding; the letters
occurring in the trigger sets are ASCII, and CJK characters are unaffected). -/
def lowerChars (s : String) : List Char :=
  s.data.map Char.toLower

/-- Whether `needle` matches the front of `hay` (both as character lists). -/
def leadMatch : List Char → List Char → Bool
  | [], _ => true
  | _ :: _, [] => false
  | a :: as, b :: bs => a = b && leadMatch as bs

/-- Whether `needle` occurs contiguously anywhere inside `hay` — the Python
substring test `needle in hay`. -/
def subMatch (needle : List Char) : List Char → Bool
  | [] => leadMatch needle []
  | c :: rest => leadMatch needle (c :: rest) || subMatch needle rest

/-- The Python test `keyword in message_lower`. -/
def containsKeyword (hayLower : List Char) (keyword : String) : Bool :=
  subMatch keyword.data hayLower

/-- An observable side effect of the per-message pipeline: a database write,
an outbound reply, or the generation-service call.  Analytics payloads are
modelled by the action string and the optional `user_info['error']` field
(the rest of the JSON payload is not load-bearing for any claim). -/
inductive Event where
  | upsertUser : Event
  | genCall : String → String → Event
  | replySent : String → Event
  | conversationSaved : String → String → Event
  | memorySaved : String → String → Event
  | analytics : String → Option String → Event
deriving DecidableEq

/-- Event-trace of the `for keyword in keywords` loop of
`extract_and_save_memories`: on the first keyword contained in the lowered
message, save the whole original message as one `personal_info` memory and
`break`; otherwise keep scanning. -/
def scanKeywords (user_message : String) (hayLower : List Char) :
    List String → List Event
  | [] => []
  | k :: rest =>
    if containsKeyword hayLower k then
      [Event.memorySaved "personal_info" user_message]
    else scanKeywords user_message hayLower rest

/-- The Python `extract_and_save_memories(user_id, user_message, language)`,
as the trace of memory writes it performs. -/
def extract_and_save_memories (user_message : String) (language : Option String) :
    List Event :=
  scanKeywords user_message (lowerChars user_message) (keywords_for language)

/-- Outcome of the single `client.chat.completions.create` attempt:
a generated reply, or any raised exception (timeout, quota, transport),
carried as its message text. -/
inductive GenResult where
  | ok : String → GenResult
  | err : String → GenResult

/-- The Python `chat(update, context)` handler as the ordered trace of its
side effects.  Inputs: the message text, the value returned by
`get_user_language`, the stored memory table, and the outcome of the
generation call.  The body mirrors `main.py`: upsert the user; build
`memory_context` from `get_user_memories`; look up
`SYSTEM_PROMPTS[language]` (a `KeyError` jumps to the `except` branch before
any generation call); call the generation service; on success send the
reply, save the conversation, run the fact extractor and log a `message`
analytics row; on any exception log a `message_error` analytics row carrying
the error text and send the localized apology. -/
def chat (user_message : String) (language : Option String)
    (stored : List Memory) (gen : GenResult) : List Event :=
  let memories := get_user_memories stored
  Event.upsertUser ::
    match SYSTEM_PROMPTS language with
    | none =>
      [Event.analytics "message_error" (some "KeyError"),
       Event.replySent (fallback_text language)]
    | some base =>
      Event.genCall (base ++ memory_context memories) user_message ::
        match gen with
        | .ok reply_text =>
          Event.replySent reply_text ::
            Event.conversationSaved user_message reply_text ::
              extract_and_save_memories user_message language ++
                [Event.analytics "message" none]
        | .err e =>
          [Event.analytics "message_error" (some e),
           Event.replySent (fallback_text language)]

/-- Test for an outbound reply event. -/
def isReply : Event → Bool
  | .replySent _ => true
  | _ => false

/-- Test for a generation-service call event. -/
def isGenCall : Event → Bool
  | .genCall _ _ => true
  | _ => false

/-- Test for a conversation-row write. -/
def isConvSave : Event → Bool
  | .conversationSaved _ _ => true
  | _ => false

/-- Test for a memory-row write. -/
def isMemorySave : Event → Bool
  | .memorySaved _ _ => true
  | _ => false

/-- Test for an analytics-row write (any action). -/
def isAnalytics : Event → Bool
  | .analytics _ _ => true
  | _ => false

/-- Test for an analytics row whose action is `message_error`. -/
def isErrorAnalytics : Event → Bool
  | .analytics action _ => action = "message_error"
  | _ => false

/-- The `new_lang = 'en' if current_lang == 'zh' else 'zh'` computation of
`language_command`, applied to the value `get_user_language` returned. -/
def toggle_language (current_lang : Option String) : String :=
  if current_lang = some "zh" then "en" else "zh"

/-- Effect of one `/language` command on the stored `preferred_language`
column of an existing user row, assuming the read and the
`set_user_language` write both succeed: read the current value, flip it,
store the result. -/
def language_command_step (pref : Option String) : Option String :=
  some (toggle_language (get_user_language true (some pref)))

/-! ## Startup (`main.py`: module import, then `main`) -/

/-- The three environment values read at module load:
`BOT_TOKEN`, `OPENAI_API_KEY`, `DATABASE_URL` (`none` = variable unset). -/
structure Env where
  bot_token : Option String
  openai_api_key : Option String
  database_url : Option String

/-- What running the script leaves behind: the lines the program printed,
whether the application was built and polling started, and the process exit
status (for the started branch the process keeps polling and the field is a
placeholder). -/
structure StartupResult where
  printed : List String
  started : Bool
  exitCode : Nat

/-- Python truthiness test `not VALUE` for an optional string: true for an
unset variable and for the empty string. -/
def pyFalsy (v : Option String) : Bool :=
  match v with
  | none => true
  | some s => s = ""

/-- The body of the Python `main()`: the lines it prints and whether the
application was built and polling started.  Each missing credential prints
one message and returns without building the application; otherwise the
application is built, the banner is printed and polling starts.  `main()`
itself never sets an exit status — it either returns or never terminates. -/
def mainBody (env : Env) : List String × Bool :=
  if pyFalsy env.bot_token then
    (["❌ BOT_TOKEN not found in environment variables."], false)
  else if pyFalsy env.openai_api_key then
    (["❌ OPENAI_API_KEY not found in environment variables."], false)
  else if pyFalsy env.database_url then
    (["❌ DATABASE_URL not found in environment variables."], false)
  else
    (["🤖 小語 AI Bot 已啟動！",
      "💖 Enhanced with memory, multiple languages, and virtual dates!"], true)

/-- Running `python main.py` as a process.  Importing the module executes
`client = OpenAI(api_key=OPENAI_API_KEY)` before `main()` is ever called;
the openai-python 1.x constructor raises `OpenAIError` when the supplied key
and its own `OPENAI_API_KEY` environment fallback are both `None`, so with
the variable unset the interpreter dies on the unhandled exception — exit
status 1, a stderr traceback, and none of the program's own messages
(an empty-string key is not `None` and passes the constructor).  Otherwise
`main()` runs; a plain `return` from it ends the process with status 0. -/
def processStartup (env : Env) : StartupResult :=
  if env.openai_api_key = none then ⟨[], false, 1⟩
  else ⟨(mainBody env).1, (mainBody env).2, 0⟩

/-- A memory table with six entries, appended in order `m1` … `m6`
(`m6` most recent). -/
def demoStore6 : List Memory :=
  [⟨"personal_info", "m1", 1⟩, ⟨"personal_info", "m2", 2⟩,
   ⟨"personal_info", "m3", 3⟩, ⟨"personal_info", "m4", 4⟩,
   ⟨"personal_info", "m5", 5⟩, ⟨"personal_info", "m6", 6⟩]

/-! ## Theorems -/

theorem pruneTimes_eq_self (window_seconds now : Int) (times : List Int)
    (h : ∀ t ∈ times, now - t < window_seconds) :
    pruneTimes window_seconds now times = times :=
  List.filter_eq_self.mpr (fun t ht => decide_eq_true (h t ht))

theorem pruneTimes_length_lt (window_seconds now : Int) (times : List Int)
    (t : Int) (ht : t ∈ times) (hout : window_seconds ≤ now - t) :
    (pruneTimes window_seconds now times).length < times.length := by
  rcases Nat.lt_or_ge (pruneTimes window_seconds now times).length times.length with h | h
  · exact h
  · exfalso
    have hle : (pruneTimes window_seconds now times).length ≤ times.length :=
      (List.filter_sublist times).length_le
    have heq : pruneTimes window_seconds now times = times :=
      (List.filter_sublist times).eq_of_length (Nat.le_antisymm hle h)
    have := List.filter_eq_self.mp heq t ht
    simp only [decide_eq_true_eq] at this
    omega

/-- C3: once `max_messages` calls have been admitted inside the window (the
stored list holds exactly `max_messages` timestamps, all within
`window_seconds` of `now`), the call at `now` is rejected and leaves the
stored list unchanged (the rejected attempt is not recorded); and at any
later time `now2` that is at least `window_seconds` after some admitted
timestamp `told`, admission resumes. -/
theorem rate_limit_reject_and_resume (max_messages : Nat)
    (window_seconds now now2 told : Int) (times : List Int)
    (hlen : times.length = max_messages)
    (hwin : ∀ t ∈ times, now - t < window_seconds)
    (htold : told ∈ times)
    (helapsed : window_seconds ≤ now2 - told) :
    rate_limit max_messages window_seconds times now = ⟨false, times⟩ ∧
    (rate_limit max_messages window_seconds times now2).allowed = true := by
  constructor
  · have hprune := pruneTimes_eq_self window_seconds now times hwin
    simp [rate_limit, hprune, hlen]
  · have hlt := pruneTimes_length_lt window_seconds now2 times told htold helapsed
    have : ¬ max_messages ≤ (pruneTimes window_seconds now2 times).length := by omega
    simp [rate_limit, this]

/-- Concrete instantiation of `rate_limit_reject_and_resume`: limit 1 per 5
seconds, one admitted call at time 0; time 3 is rejected without recording,
time 5 is admitted again. -/
theorem rate_limit_reject_and_resume_witness :
    rate_limit 1 5 [0] 3 = ⟨false, [0]⟩ ∧ (rate_limit 1 5 [0] 5).allowed = true :=
  rate_limit_reject_and_resume 1 5 3 5 0 [0] (by decide)
    (by intro t ht; simp at ht; omega) (by decide) (by decide)

theorem rlInv_step (max_messages : Nat) (window_seconds now now' : Int)
    (times : List Int) (hw : 0 < window_seconds) (hmono : now ≤ now')
    (hinv : rlInv max_messages window_seconds now times) :
    rlInv max_messages window_seconds now'
      (rate_limit max_messages window_seconds times now').times := by
  obtain ⟨hlen, hwin, hle, hsorted⟩ := hinv
  have hmemkept : ∀ t ∈ pruneTimes window_seconds now' times, t ∈ times := by
    intro t ht; exact (List.mem_filter.mp ht).1
  have hkeptwin : ∀ t ∈ pruneTimes window_seconds now' times, now' - t < window_seconds := by
    intro t ht
    have := (List.mem_filter.mp ht).2
    simpa using this
  have hkeptle : ∀ t ∈ pruneTimes window_seconds now' times, t ≤ now' := by
    intro t ht; exact le_trans (hle t (hmemkept t ht)) hmono
  have hkeptsorted : (pruneTimes window_seconds now' times).Sorted (· ≤ ·) :=
    hsorted.filter _
  have hkeptlen : (pruneTimes window_seconds now' times).length ≤ times.length :=
    (List.filter_sublist times).length_le
  unfold rate_limit
  by_cases hfull : max_messages ≤ (pruneTimes window_seconds now' times).length
  · simp only [hfull, if_true]
    exact ⟨le_trans hkeptlen hlen, hkeptwin, hkeptle, hkeptsorted⟩
  · simp only [hfull, if_false]
    refine ⟨?_, ?_, ?_, ?_⟩
    · simp only [List.length_append, List.length_singleton]
      omega
    · intro t ht
      rcases List.mem_append.mp ht with h | h
      · exact hkeptwin t h
      · simp at h; subst h; omega
    · intro t ht
      rcases List.mem_append.mp ht with h | h
      · exact hkeptle t h
      · simp at h; omega
    · rw [List.Sorted, List.pairwise_append]
      refine ⟨hkeptsorted, by simp, ?_⟩
      intro a ha b hb
      simp at hb; subst hb
      exact hkeptle a ha

theorem rlInv_foldl (max_messages : Nat) (window_seconds : Int)
    (hw : 0 < window_seconds) (calls : List Int) :
    ∀ st now, rlInv max_messages window_seconds now st →
      List.Chain (· ≤ ·) now calls →
      rlInv max_messages window_seconds (lastD now calls)
        (calls.foldl (fun s t => (rate_limit max_messages window_seconds s t).times) st) := by
  induction calls with
  | nil => intro st now hinv _; simpa [lastD] using hinv
  | cons c cs ih =>
    intro st now hinv hchain
    rcases List.chain_cons.mp hchain with ⟨hnc, hcs⟩
    have hstep := rlInv_step max_messages window_seconds now c st hw hnc hinv
    simpa [lastD] using ih _ c hstep hcs

/-- C10: starting from the empty per-user entry and making calls at
non-decreasing times `c :: cs`, after the last call the stored timestamp list
holds at most `max_messages` entries, every entry lies within
`window_seconds` of the last call time, no entry exceeds the last call time,
and the list is in non-decreasing order. -/
theorem rate_limit_state_invariant (max_messages : Nat) (window_seconds : Int)
    (c : Int) (cs : List Int) (hw : 0 < window_seconds)
    (hchain : (c :: cs).Chain' (· ≤ ·)) :
    rlInv max_messages window_seconds (lastD c cs)
      (runAdmits max_messages window_seconds (c :: cs)) := by
  have hinv0 : rlInv max_messages window_seconds c [] := by
    refine ⟨by simp, by simp, by simp, by simp⟩
  have hchain2 : List.Chain (· ≤ ·) c (c :: cs) :=
    List.chain_cons.mpr ⟨le_refl c, hchain⟩
  have := rlInv_foldl max_messages window_seconds hw (c :: cs) [] c hinv0 hchain2
  simpa [runAdmits, lastD] using this

/-- Concrete instantiation of `rate_limit_state_invariant`: limit 2 per 10
seconds, calls at times 0, 1, 2, 12. -/
theorem rate_limit_state_invariant_witness :
    0 < (10 : Int) ∧ ([0, 1, 2, 12] : List Int).Chain' (· ≤ ·) ∧
    rlInv 2 10 (lastD 0 [1, 2, 12]) (runAdmits 2 10 [0, 1, 2, 12]) :=
  ⟨by decide,
    List.Chain.cons (by decide) (List.Chain.cons (by decide)
      (List.Chain.cons (by decide) List.Chain.nil)),
    rate_limit_state_invariant 2 10 0 [1, 2, 12] (by decide)
      (List.Chain.cons (by decide) (List.Chain.cons (by decide)
        (List.Chain.cons (by decide) List.Chain.nil)))⟩

theorem scanKeywords_eq (user_message : String) (hayLower : List Char)
    (keys : List String) :
    scanKeywords user_message hayLower keys =
      if keys.any (fun k => containsKeyword hayLower k) then
        [Event.memorySaved "personal_info" user_message]
      else [] := by
  induction keys with
  | nil => rfl
  | cons k rest ih =>
    by_cases h : containsKeyword hayLower k
    · simp [scanKeywords, h]
    · simp [scanKeywords, h, ih]

/-- C4: fact extraction scans the lowered message against the trigger set for
the user's language; if some trigger is a substring it stores the entire
original message as exactly one `personal_info` memory, otherwise it writes
nothing, and in all cases at most one memory is appended; the outcome
depends on the message only through its lowercase form. -/
theorem extract_memories_spec (user_message : String) (language : Option String) :
    ((keywords_for language).any
        (fun k => containsKeyword (lowerChars user_message) k) = true →
      extract_and_save_memories user_message language =
        [Event.memorySaved "personal_info" user_message]) ∧
    ((keywords_for language).any
        (fun k => containsKeyword (lowerChars user_message) k) = false →
      extract_and_save_memories user_message language = []) ∧
    (extract_and_save_memories user_message language).length ≤ 1 ∧
    (∀ m2 : String, lowerChars m2 = lowerChars user_message →
      ((extract_and_save_memories m2 language).length =
        (extract_and_save_memories user_message language).length)) := by
  refine ⟨?_, ?_, ?_, ?_⟩
  · intro h
    unfold extract_and_save_memories
    rw [scanKeywords_eq, h]
    rfl
  · intro h
    unfold extract_and_save_memories
    rw [scanKeywords_eq, h]
    rfl
  · unfold extract_and_save_memories
    rw [scanKeywords_eq]
    by_cases h : (keywords_for language).any
        (fun k => containsKeyword (lowerChars user_message) k) <;> simp [h]
  · intro m2 hm2
    unfold extract_and_save_memories
    rw [scanKeywords_eq, scanKeywords_eq, hm2]
    by_cases h : (keywords_for language).any
        (fun k => containsKeyword (lowerChars user_message) k) <;> simp [h]

/-- Concrete instantiation of `extract_memories_spec`: the English trigger
`my name is` matches `My name is Alex` case-insensitively, and the whole
original message is stored once. -/
theorem extract_memories_spec_witness :
    ((keywords_for (some "en")).any
        (fun k => containsKeyword (lowerChars "My name is Alex") k) = true) ∧
    extract_and_save_memories "My name is Alex" (some "en") =
      [Event.memorySaved "personal_info" "My name is Alex"] :=
  ⟨by decide, (extract_memories_spec "My name is Alex" (some "en")).1 (by decide)⟩

/-- C1 (failing evaluation): with six stored memories `m1 … m6` (`m6` most
recent), the memory lines `chat` includes in the system prompt are
`m5, m4, m3, m2, m1` — the newest memory `m6` is omitted — whereas the five
most recent contents in most-recent-first order (the first five rows of the
descending store query) are `m6, m5, m4, m3, m2`. -/
theorem memory_context_omits_newest :
    memoryLineContents (get_user_memories demoStore6) =
      ["m5", "m4", "m3", "m2", "m1"] ∧
    ((get_user_memories demoStore6).take 5).map (fun m => m.content) =
      ["m6", "m5", "m4", "m3", "m2"] ∧
    memoryLineContents (get_user_memories demoStore6) ≠
      ((get_user_memories demoStore6).take 5).map (fun m => m.content) := by
  decide

/-- C2: when the generation call raises, `chat` sends exactly one reply — the
fixed apology in the user's current language — and appends exactly one
`message_error` analytics row carrying the error text; the exception does
not escape the handler (the trace is total). -/
theorem chat_generation_failure_reply (user_message e base : String)
    (language : Option String) (stored : List Memory)
    (hlang : SYSTEM_PROMPTS language = some base) :
    (chat user_message language stored (.err e)).filter isReply =
      [Event.replySent (fallback_text language)] ∧
    (chat user_message language stored (.err e)).filter isErrorAnalytics =
      [Event.analytics "message_error" (some e)] := by
  unfold chat
  rw [hlang]
  constructor <;> rfl

/-- Concrete instantiation of `chat_generation_failure_reply`: an English
user, a timeout from the generation service. -/
theorem chat_generation_failure_reply_witness :
    (chat "hi" (some "en") [] (.err "timeout")).filter isReply =
      [Event.replySent (fallback_text (some "en"))] ∧
    (chat "hi" (some "en") [] (.err "timeout")).filter isErrorAnalytics =
      [Event.analytics "message_error" (some "timeout")] :=
  chat_generation_failure_reply "hi" "timeout" SYSTEM_PROMPT_EN (some "en") [] rfl

/-- C9: when the generation call raises, `chat` writes no conversation row
and no memory row; its only analytics row is the single `message_error` row,
and the user upsert (the first step) still occurs. -/
theorem chat_generation_failure_frame (user_message e base : String)
    (language : Option String) (stored : List Memory)
    (hlang : SYSTEM_PROMPTS language = some base) :
    (chat user_message language stored (.err e)).filter isConvSave = [] ∧
    (chat user_message language stored (.err e)).filter isMemorySave = [] ∧
    (chat user_message language stored (.err e)).filter isAnalytics =
      [Event.analytics "message_error" (some e)] ∧
    (chat user_message language stored (.err e)).head? = some Event.upsertUser := by
  unfold chat
  rw [hlang]
  refine ⟨rfl, rfl, rfl, rfl⟩

/-- Concrete instantiation of `chat_generation_failure_frame`: a Chinese user
with one stored memory, a crashed generation call. -/
theorem chat_generation_failure_frame_witness :
    (chat "你好" (some "zh") [⟨"personal_info", "我叫小明", 1⟩] (.err "boom")).filter
        isConvSave = [] ∧
    (chat "你好" (some "zh") [⟨"personal_info", "我叫小明", 1⟩] (.err "boom")).filter
        isMemorySave = [] ∧
    (chat "你好" (some "zh") [⟨"personal_info", "我叫小明", 1⟩] (.err "boom")).filter
        isAnalytics = [Event.analytics "message_error" (some "boom")] ∧
    (chat "你好" (some "zh") [⟨"personal_info", "我叫小明", 1⟩] (.err "boom")).head? =
      some Event.upsertUser :=
  chat_generation_failure_frame "你好" "boom" SYSTEM_PROMPT_ZH (some "zh")
    [⟨"personal_info", "我叫小明", 1⟩] rfl

/-- C5 (failing evaluation): the message `my name is Alex` matches an English
trigger, so the claimed step order would extract a memory from it before and
independently of the generation call; yet when the generation call fails,
`chat` writes no memory at all — fact extraction runs after (and only
after) a successful generation. -/
theorem chat_no_extraction_on_failure :
    extract_and_save_memories "my name is Alex" (some "en") =
      [Event.memorySaved "personal_info" "my name is Alex"] ∧
    (chat "my name is Alex" (some "en") [] (.err "timeout")).filter isMemorySave =
      [] := by
  constructor <;> rfl

/-- C5 (amended): on generation failure `chat` saves no memory; on success
its memory writes are exactly those of the fact extractor, and they occur
strictly after the single generation call (the trace splits as a prefix
containing the generation call and no memory write, then the extractor's
writes, then the rest). -/
theorem chat_extraction_after_generation (user_message reply e base : String)
    (language : Option String) (stored : List Memory)
    (hlang : SYSTEM_PROMPTS language = some base) :
    (chat user_message language stored (.err e)).filter isMemorySave = [] ∧
    (chat user_message language stored (.ok reply)).filter isMemorySave =
      extract_and_save_memories user_message language ∧
    ∃ pre post,
      chat user_message language stored (.ok reply) =
        pre ++ (extract_and_save_memories user_message language ++ post) ∧
      (pre.filter isGenCall).length = 1 ∧ pre.filter isMemorySave = [] := by
  refine ⟨?_, ?_, ?_⟩
  · unfold chat
    rw [hlang]
    rfl
  · unfold chat
    rw [hlang]
    unfold extract_and_save_memories
    rw [scanKeywords_eq]
    by_cases h : (keywords_for language).any
        (fun k => containsKeyword (lowerChars user_message) k) <;>
      simp [h, List.filter, isMemorySave]
  · refine ⟨[Event.upsertUser,
      Event.genCall (base ++ memory_context (get_user_memories stored)) user_message,
      Event.replySent reply, Event.conversationSaved user_message reply],
      [Event.analytics "message" none], ?_, rfl, rfl⟩
    unfold chat
    rw [hlang]
    simp

/-- Concrete instantiation of `chat_extraction_after_generation`. -/
theorem chat_extraction_after_generation_witness :
    (chat "i like tea" (some "en") [] (.err "x")).filter isMemorySave = [] ∧
    (chat "i like tea" (some "en") [] (.ok "nice")).filter isMemorySave =
      extract_and_save_memories "i like tea" (some "en") ∧
    ∃ pre post,
      chat "i like tea" (some "en") [] (.ok "nice") =
        pre ++ (extract_and_save_memories "i like tea" (some "en") ++ post) ∧
      (pre.filter isGenCall).length = 1 ∧ pre.filter isMemorySave = [] :=
  chat_extraction_after_generation "i like tea" "nice" "x" SYSTEM_PROMPT_EN
    (some "en") [] rfl

/-- C6 (failing evaluation): for a user whose row exists but whose
`preferred_language` column is NULL — exactly what `ensure_user_exists`
creates — `get_user_language` returns the NULL itself, not the default
`'zh'`. -/
theorem get_user_language_null_pref :
    get_user_language true (some none) ≠ some "zh" := by decide

/-- C6 (amended): `get_user_language` returns `'zh'` when the store read
fails or when no user row exists; when a row exists it returns the stored
`preferred_language` value unchanged — in particular a NULL preference
yields Python `None`, and any stored string (supported tag or not) is passed
through. -/
theorem get_user_language_behavior :
    (∀ row, get_user_language false row = some "zh") ∧
    get_user_language true none = some "zh" ∧
    (∀ pref, get_user_language true (some pref) = pref) :=
  ⟨fun _ => rfl, rfl, fun _ => rfl⟩

/-- C7 (failing evaluation): with `BOT_TOKEN` unset and the other two
credentials present, the import succeeds, `main()` prints its message and
returns — the process exit status is 0, not the non-zero status the claim
requires. -/
theorem processStartup_missing_token_exit_zero :
    (processStartup ⟨none, some "k", some "db"⟩).started = false ∧
    (processStartup ⟨none, some "k", some "db"⟩).exitCode = 0 := by
  constructor <;> rfl

/-- C7 (amended): if any of the three required configuration values is
absent (or empty), no component is started, but the failure mode depends on
which value is missing: an unset `OPENAI_API_KEY` kills the process at
module import with an unhandled `OpenAIError` — exit status 1 and none of
the program's own messages printed; in every other case (`BOT_TOKEN` or
`DATABASE_URL` absent, or `OPENAI_API_KEY` set to the empty string)
`main()` prints exactly one descriptive error message and returns, the
process exiting with status 0. -/
theorem processStartup_missing_config (env : Env)
    (h : pyFalsy env.bot_token = true ∨ pyFalsy env.openai_api_key = true ∨
      pyFalsy env.database_url = true) :
    (processStartup env).started = false ∧
    (env.openai_api_key = none →
      (processStartup env).exitCode = 1 ∧ (processStartup env).printed = []) ∧
    (env.openai_api_key ≠ none →
      (processStartup env).exitCode = 0 ∧
      ((processStartup env).printed =
          ["❌ BOT_TOKEN not found in environment variables."] ∨
        (processStartup env).printed =
          ["❌ OPENAI_API_KEY not found in environment variables."] ∨
        (processStartup env).printed =
          ["❌ DATABASE_URL not found in environment variables."])) := by
  by_cases hk : env.openai_api_key = none
  · refine ⟨?_, fun _ => ?_, fun hne => absurd hk hne⟩ <;> simp [processStartup, hk]
  · refine ⟨?_, fun habs => absurd habs hk, fun _ => ?_⟩
    · unfold processStartup mainBody
      by_cases h1 : pyFalsy env.bot_token
      · simp [hk, h1]
      · by_cases h2 : pyFalsy env.openai_api_key
        · simp [hk, h1, h2]
        · by_cases h3 : pyFalsy env.database_url
          · simp [hk, h1, h2, h3]
          · rcases h with h | h | h <;> simp_all
    · unfold processStartup mainBody
      by_cases h1 : pyFalsy env.bot_token
      · simp [hk, h1]
      · by_cases h2 : pyFalsy env.openai_api_key
        · simp [hk, h1, h2]
        · by_cases h3 : pyFalsy env.database_url
          · simp [hk, h1, h2, h3]
          · rcases h with h | h | h <;> simp_all

/-- Concrete instantiation of `processStartup_missing_config` at the
import-time failure: `OPENAI_API_KEY` unset, the other two present — exit
status 1 and nothing printed by the program. -/
theorem processStartup_missing_config_witness :
    (processStartup ⟨some "t", none, some "db"⟩).started = false ∧
    ((none : Option String) = none →
      (processStartup ⟨some "t", none, some "db"⟩).exitCode = 1 ∧
      (processStartup ⟨some "t", none, some "db"⟩).printed = []) ∧
    ((none : Option String) ≠ none →
      (processStartup ⟨some "t", none, some "db"⟩).exitCode = 0 ∧
      ((processStartup ⟨some "t", none, some "db"⟩).printed =
          ["❌ BOT_TOKEN not found in environment variables."] ∨
        (processStartup ⟨some "t", none, some "db"⟩).printed =
          ["❌ OPENAI_API_KEY not found in environment variables."] ∨
        (processStartup ⟨some "t", none, some "db"⟩).printed =
          ["❌ DATABASE_URL not found in environment variables."])) :=
  processStartup_missing_config ⟨some "t", none, some "db"⟩ (Or.inr (Or.inl (by decide)))

/-- C8: for a user whose stored preference is one of the two supported tags,
two applications of the `/language` command return the stored preference to
its original value. -/
theorem language_toggle_involution (pref : Option String)
    (h : pref = some "zh" ∨ pref = some "en") :
    language_command_step (language_command_step pref) = pref := by
  rcases h with h | h <;> subst h <;> rfl

/-- Concrete instantiation of `language_toggle_involution` at `'zh'`. -/
theorem language_toggle_involution_witness :
    ((some "zh" : Option String) = some "zh" ∨
      (some "zh" : Option String) = some "en") ∧
    language_command_step (language_command_step (some "zh")) = some "zh" :=
  ⟨Or.inl rfl, language_toggle_involution (some "zh") (Or.inl rfl)⟩
